import Mathlib

/-!
Verification of the sale-transaction and stock-consistency core of the
Minha_loja_web repository (src/Minha_loja_web/logica_banco.py and
src/Minha_loja_web/app.py), as a shallow embedding.

Modelling conventions, justified against the source:

* Storage model.  DatabaseManager.execute_query (logica_banco.py:72-84)
  calls cursor.execute and then conn.commit() on every single statement.
  Consequently (i) every successful statement is immediately durable,
  (ii) the later conn.rollback() calls inside registrar_venda_completa
  have no open transaction left to undo, and (iii) the fresh read
  connections opened by buscar_produto_por_id observe all previously
  executed statements.  The embedding therefore threads one DB value that
  is updated after each successful statement; an error return leaves the
  updates of the earlier statements in place, exactly as sqlite does here.

* Failure model.  A sqlite3.Error on the nth cursor.execute of a call to
  registrar_venda_completa is modelled by an oracle (oracle : Nat → Bool),
  true meaning that statement raises.  CHECK-constraint violations of the
  schema created by setup_database (logica_banco.py:119-182) are modelled
  deterministically, because they make cursor.execute raise regardless of
  the environment.  The repository never executes PRAGMA foreign_keys, and
  the Python sqlite3 driver leaves foreign-key enforcement OFF by default,
  so the FOREIGN KEY clauses (ON DELETE SET NULL / CASCADE / RESTRICT) of
  the schema have no runtime effect; deletes therefore touch only their
  own table.

* Numbers.  Python floats (prices, totals) are modelled as Rat; every
  claim under study compares values produced by identical arithmetic on
  both sides, so the abstraction is faithful for them.  Quantities are
  Int (Python int).  The float()/int() string parsing of validar_preco /
  validar_quantidade is abstracted to the post-parse predicates 0 < p and
  0 ≤ q; parse failures are out of scope of every claim.

* Timestamps.  datetime.now() is passed in as an opaque string argument
  (now); the AUTOINCREMENT id columns of itens_venda and historico_estoque
  and the data_criacao/data_atualizacao columns of produtos are not
  referenced by any claim and are omitted from the row types.
-/

unseal Rat.mul Rat.add Rat.sub Rat.inv

namespace Loja

/-! ## Validation layer (logica_banco.py:8-45, app.py:39-58) -/

/-- Model of the regex substitution re.sub(r'&lt;[^&gt;]*&gt;', '', texto) used by
sanitizar_input: a tag starts at a < and runs to the first following >;
a < that is never closed is kept verbatim (the regex finds no match
there, and the skipped characters cannot contain a > either).
The second argument is none while outside a tag, and some pend while
inside one, pend holding the consumed characters in reverse. -/
def rmTags : List Char → Option (List Char) → List Char
  | [], none => []
  | [], some pend => pend.reverse
  | c :: r, none => if c = '<' then rmTags r (some [c]) else c :: rmTags r none
  | c :: r, some pend => if c = '>' then rmTags r none else rmTags r (some (c :: pend))

/-- Python str.strip(): drop leading and trailing whitespace. -/
def stripWs (cs : List Char) : List Char :=
  ((cs.dropWhile Char.isWhitespace).reverse.dropWhile Char.isWhitespace).reverse

/-- sanitizar_input (logica_banco.py:22-29): remove HTML-like tags, then
strip surrounding whitespace; empty input stays empty. -/
def sanitizar_input (s : String) : String :=
  ⟨stripWs (rmTags s.data none)⟩

/-- Character class [a-zA-Z0-9._%+-] of the local part of the email regex. -/
def emailLocalChar (c : Char) : Bool :=
  c.isAlpha || c.isDigit || c = '.' || c = '_' || c = '%' || c = '+' || c = '-'

/-- Character class [a-zA-Z0-9.-] of the domain part of the email regex. -/
def emailDomainChar (c : Char) : Bool :=
  c.isAlpha || c.isDigit || c = '.' || c = '-'

/-- Matcher for the domain part of the regex, [a-zA-Z0-9.-]+\.[a-zA-Z]\x7b2,\x7d
anchored at the end: some split dom = P ++ dot :: S with P nonempty over the
domain class and S at least two letters.  Trying every split position is
exactly what the backtracking engine does. -/
def emailDomMatch (dom : List Char) : Bool :=
  (List.range dom.length).any fun i =>
    let P := dom.take i
    match dom.drop i with
    | '.' :: S => !P.isEmpty && P.all emailDomainChar && S.all Char.isAlpha && decide (2 ≤ S.length)
    | _ => false

/-- Full-string match of the anchored pattern
^[a-zA-Z0-9._%+-]+@[a-zA-Z0-9.-]+\.[a-zA-Z]\x7b2,\x7d$ .  Neither character
class contains @, so the @ consumed by the regex is necessarily the first @
of the string, and List.span splits there. -/
def emailMatch (cs : List Char) : Bool :=
  match cs.span (fun c => c ≠ '@') with
  | (loc, '@' :: dom) => !loc.isEmpty && loc.all emailLocalChar && emailDomMatch dom
  | _ => false

/-- validar_email (logica_banco.py:9-14): an absent or empty email is valid
(email opcional); otherwise the anchored regex must match.  Python re
lets $ also match just before one trailing newline, hence dropTrailNl. -/
def validar_email (email : String) : Bool :=
  if email = "" then true
  else
    let cs := email.data
    let cs := if cs.getLast? = some '\n' then cs.dropLast else cs
    emailMatch cs

/-- validar_preco (logica_banco.py:31-37) after the float() parse:
the parsed price must be strictly positive. -/
def validar_preco (p : Rat) : Bool := decide (0 < p)

/-- validar_quantidade (logica_banco.py:39-45) after the int() parse:
the parsed quantity must be non-negative. -/
def validar_quantidade (q : Int) : Bool := decide (0 ≤ q)

/-! ## sqlite LIKE (used by buscar_produto_por_codigo) -/

/-- sqlite LIKE folds ASCII letters only. -/
def lcaseA (c : Char) : Char :=
  if 'A' ≤ c ∧ c ≤ 'Z' then Char.ofNat (c.toNat + 32) else c

/-- sqlite LIKE matcher with fuel (fuel keeps the recursion structural so
that the kernel can evaluate it): percent matches any sequence, underscore
any single character, and plain characters compare ASCII-case-insensitively. -/
def likeAux : Nat → List Char → List Char → Bool
  | 0, _, _ => false
  | _ + 1, [], [] => true
  | fuel + 1, '%' :: ps, s =>
    likeAux fuel ps s ||
      (match s with
       | [] => false
       | _ :: s1 => likeAux fuel ('%' :: ps) s1)
  | fuel + 1, '_' :: ps, _ :: s => likeAux fuel ps s
  | fuel + 1, p :: ps, c :: s =>
    if p = '%' ∨ p = '_' then false else lcaseA p == lcaseA c && likeAux fuel ps s
  | _ + 1, _, _ => false

/-- Entry point with enough fuel: each step shortens the pattern or the
string, so length of pattern plus twice the length of the string suffices. -/
def likeMatch (pat s : List Char) : Bool :=
  likeAux (pat.length + 2 * s.length + 1) pat s

/-! ## Data model (schema from setup_database, logica_banco.py:109-201) -/

structure Produto where
  id : Nat
  nome : String
  preco : Rat
  quantidade : Int
  codigo_barras : Option String
deriving DecidableEq

structure Cliente where
  id : Nat
  nome : String
  telefone : Option String
  email : Option String
deriving DecidableEq

structure Venda where
  id : Nat
  cliente_id : Option Nat
  data_venda : String
  total : Rat
  forma_pagamento : String
  valor_pago : Rat
  troco : Rat
deriving DecidableEq

structure ItemVenda where
  venda_id : Nat
  produto_id : Nat
  quantidade : Int
  preco_unitario : Rat
deriving DecidableEq

structure Movimento where
  produto_id : Nat
  tipo : String
  quantidade : Int
  data_movimento : String
deriving DecidableEq

/-- The committed database state.  Lists keep sqlite insertion order (all
the queries under study either have no ORDER BY or never read order).
The next… counters model the AUTOINCREMENT id columns. -/
structure DB where
  produtos : List Produto
  clientes : List Cliente
  vendas : List Venda
  itens : List ItemVenda
  historico : List Movimento
  nextProdutoId : Nat
  nextClienteId : Nat
  nextVendaId : Nat
deriving DecidableEq

/-- The freshly initialised database: empty tables, AUTOINCREMENT at 1. -/
def db0 : DB := ⟨[], [], [], [], [], 1, 1, 1⟩

/-- buscar_produto_por_id (logica_banco.py:356-365): SELECT * FROM produtos
WHERE id = ?, first row or none. -/
def buscar_produto_por_id (db : DB) (id : Nat) : Option Produto :=
  db.produtos.find? (fun p => p.id == id)

/-- buscar_produto_por_codigo (logica_banco.py:367-380): sanitize the query,
then SELECT the first row with codigo_barras = ? OR nome LIKE ?, the LIKE
pattern being percent-query-percent.  TEXT equality in sqlite is exact and
a NULL codigo_barras never equals the parameter; LIKE is ASCII
case-insensitive with percent and underscore as wildcards. -/
def buscar_produto_por_codigo (db : DB) (codigo : String) : Option Produto :=
  let q := sanitizar_input codigo
  db.produtos.find? (fun p =>
    p.codigo_barras == some q || likeMatch ('%' :: (q.data ++ ['%'])) p.nome.data)

/-- buscar_cliente_por_id (logica_banco.py:498-507). -/
def buscar_cliente_por_id (db : DB) (id : Nat) : Option Cliente :=
  db.clientes.find? (fun c => c.id == id)

/-! ## Product and customer CRUD (logica_banco.py:301-565)

The storage layer is modelled failure-free for these simple operations
(no claim concerns their storage failures); the deterministic CHECK
constraints of the schema are modelled where the inserted values are not
already forced to satisfy them. -/

/-- The Python idiom x = sanitizar_input(x) if x else None applied to an
optional string argument. -/
def sanitizeOpt (s : Option String) : Option String :=
  match s with
  | none => none
  | some v => if v = "" then none else some (sanitizar_input v)

/-- adicionar_produto (logica_banco.py:301-354).  Validates, rejects a
duplicate barcode, inserts the product and then inserts an entrada row in
historico_estoque.  That second INSERT has its cursor result ignored by
the source, and the CHECK quantidade &gt; 0 of historico_estoque silently
rejects it when the initial quantity is 0, so the movement row appears
only for a positive quantity while the operation still reports success. -/
def adicionar_produto (db : DB) (now nome : String) (preco : Rat) (quantidade : Int)
    (codigo_barras : Option String) : (Bool × String) × DB :=
  let nome := sanitizar_input nome
  let codigo_barras := sanitizeOpt codigo_barras
  if nome = "" ∨ nome.length < 2 then
    ((false, "Nome do produto deve ter pelo menos 2 caracteres"), db)
  else if !validar_preco preco then ((false, "Preço inválido"), db)
  else if !validar_quantidade quantidade then ((false, "Quantidade inválida"), db)
  else
    match codigo_barras with
    | some c =>
      if db.produtos.any (fun p => p.codigo_barras == some c) then
        ((false, "Código de barras já existe"), db)
      else
        let pid := db.nextProdutoId
        let db1 := { db with
          produtos := db.produtos ++ [⟨pid, nome, preco, quantidade, some c⟩],
          nextProdutoId := pid + 1 }
        let db2 := if 0 < quantidade then
            { db1 with historico := db1.historico ++ [⟨pid, "entrada", quantidade, now⟩] }
          else db1
        ((true, "Produto adicionado com sucesso"), db2)
    | none =>
      let pid := db.nextProdutoId
      let db1 := { db with
        produtos := db.produtos ++ [⟨pid, nome, preco, quantidade, none⟩],
        nextProdutoId := pid + 1 }
      let db2 := if 0 < quantidade then
          { db1 with historico := db1.historico ++ [⟨pid, "entrada", quantidade, now⟩] }
        else db1
      ((true, "Produto adicionado com sucesso"), db2)

/-- atualizar_produto (logica_banco.py:382-426).  Validates, rejects a
barcode that another product already carries, then UPDATEs the row with
the given id (reporting success even when no row has that id, as the
source does: the cursor of an UPDATE matching zero rows is still truthy). -/
def atualizar_produto (db : DB) (id : Nat) (nome : String) (preco : Rat)
    (quantidade : Int) (codigo_barras : Option String) : (Bool × String) × DB :=
  let nome := sanitizar_input nome
  let codigo_barras := sanitizeOpt codigo_barras
  if nome = "" ∨ nome.length < 2 then
    ((false, "Nome do produto deve ter pelo menos 2 caracteres"), db)
  else if !validar_preco preco then ((false, "Preço inválido"), db)
  else if !validar_quantidade quantidade then ((false, "Quantidade inválida"), db)
  else if (match codigo_barras with
           | some c => db.produtos.any (fun p => p.codigo_barras == some c && p.id != id)
           | none => false) then
    ((false, "Código de barras já existe em outro produto"), db)
  else
    let db1 := { db with produtos := db.produtos.map (fun p =>
      if p.id == id then
        { p with nome := nome, preco := preco, quantidade := quantidade,
                 codigo_barras := codigo_barras }
      else p) }
    ((true, "Produto atualizado com sucesso"), db1)

/-- excluir_produto (logica_banco.py:428-451).  Foreign keys are not
enforced (PRAGMA foreign_keys is never executed), so the DELETE removes
only the produtos row; itens_venda and historico_estoque keep their rows. -/
def excluir_produto (db : DB) (id : Nat) : (Bool × String) × DB :=
  if db.produtos.any (fun p => p.id == id) then
    ((true, "Produto excluído com sucesso"),
      { db with produtos := db.produtos.filter (fun p => !(p.id == id)) })
  else
    ((false, "Produto não encontrado"), db)

/-- Truthiness of the Python email variable after
email = sanitizar_input(email) if email else None: None and the empty
string are falsy. -/
def truthyOpt : Option String → Bool
  | none => false
  | some s => !(s == "")

/-- adicionar_cliente (logica_banco.py:465-496).  The INSERT is subject to
the clientes CHECK (email LIKE percent-at-percent OR email IS NULL), so an
email equal to the empty string after sanitization (possible when the raw
value was whitespace or tags only) makes the INSERT itself fail. -/
def adicionar_cliente (db : DB) (nome : String) (telefone email : Option String) :
    (Bool × String) × DB :=
  let nome := sanitizar_input nome
  let telefone := sanitizeOpt telefone
  let email := sanitizeOpt email
  if nome = "" ∨ nome.length < 2 then
    ((false, "Nome do cliente deve ter pelo menos 2 caracteres"), db)
  else if truthyOpt email && !validar_email (email.getD "") then
    ((false, "Email inválido"), db)
  else if (match email with
           | none => true
           | some e => e.data.contains '@') then
    ((true, "Cliente adicionado com sucesso"),
      { db with clientes := db.clientes ++ [⟨db.nextClienteId, nome, telefone, email⟩],
                nextClienteId := db.nextClienteId + 1 })
  else
    ((false, "Erro ao adicionar cliente"), db)

/-- excluir_cliente (logica_banco.py:542-565).  As with products, foreign
keys are unenforced, so the schema clause ON DELETE SET NULL on
vendas.cliente_id never runs: the DELETE removes the clientes row and
leaves every vendas row, including its cliente_id, untouched. -/
def excluir_cliente (db : DB) (id : Nat) : (Bool × String) × DB :=
  if db.clientes.any (fun c => c.id == id) then
    ((true, "Cliente excluído com sucesso"),
      { db with clientes := db.clientes.filter (fun c => !(c.id == id)) })
  else
    ((false, "Cliente não encontrado"), db)

/-! ## Sale Transaction Engine (registrar_venda_completa, logica_banco.py:568-652)

Every cursor.execute of one call gets a statement index (0 the vendas
INSERT; then for the ith cart line 1+3i the itens_venda INSERT, 2+3i the
produtos UPDATE, 3+3i the historico_estoque INSERT), and the oracle says
which of them raise sqlite3.Error.  Because execute_query commits each
statement on its own, a failure only stops further statements: the
earlier ones are already durable and the rollback calls of the source
have nothing left to undo. -/

/-- A cart line as arriving in the request JSON: the code reads only the
id and qtd keys; a client may also send a unit price, which nothing ever
reads. -/
structure ItemCarrinho where
  id : Nat
  qtd : Int
  preco_cliente : Option Rat
deriving DecidableEq

/-- Error message of the stock pre-flight for an absent product
(logica_banco.py:589). -/
def nfMsg (id : Nat) : String :=
  "Produto ID " ++ toString id ++ " não encontrado"

/-- Error message of the stock pre-flight for an insufficient line
(logica_banco.py:592). -/
def insuffMsg (nome : String) (disponivel solicitado : Int) : String :=
  "Estoque insuficiente para " ++ nome ++ ". Disponível: " ++ toString disponivel ++
    ", Solicitado: " ++ toString solicitado

/-- The read-only pre-flight loop (logica_banco.py:586-592): resolve every
line and compare requested quantity with stock, before any write. -/
def preflight (db : DB) : List ItemCarrinho → Option String
  | [] => none
  | item :: rest =>
    match buscar_produto_por_id db item.id with
    | none => some (nfMsg item.id)
    | some p =>
      if p.quantidade < item.qtd then some (insuffMsg p.nome p.quantidade item.qtd)
      else preflight db rest

/-- Outcome of the per-line commit loop: the error message of the aborting
line if any, and the database as left behind (earlier statements stay
committed either way). -/
structure LoopOut where
  err : Option String
  db : DB
deriving DecidableEq

/-- The per-line commit loop (logica_banco.py:607-641).  For each line, the
product row is re-read from the live state; the itens_venda INSERT takes
the re-read price and is subject to the CHECK quantidade &gt; 0 AND
preco_unitario &gt; 0; the new stock is re-verified non-negative before the
UPDATE; the historico_estoque INSERT is executed last and its cursor
result is never checked by the source, so its failure (oracle or its
CHECK quantidade &gt; 0) does not abort the sale.  The unreachable branch
where the re-read returns no row models the TypeError the source would
raise on produto preco, caught by the outer except handler. -/
def commitLoop (oracle : Nat → Bool) (now : String) (vid : Nat) :
    List ItemCarrinho → DB → Nat → LoopOut
  | [], db, _ => ⟨none, db⟩
  | item :: rest, db, k =>
    match buscar_produto_por_id db item.id with
    | none => ⟨some "Erro ao registrar venda: produto ausente", db⟩
    | some p =>
      if oracle k ∨ ¬(0 < item.qtd ∧ 0 < p.preco) then
        ⟨some "Erro ao registrar item da venda", db⟩
      else
        let db1 := { db with itens := db.itens ++ [⟨vid, item.id, item.qtd, p.preco⟩] }
        let nova := p.quantidade - item.qtd
        if nova < 0 then
          ⟨some ("Erro: Estoque ficaria negativo para " ++ p.nome), db1⟩
        else if oracle (k + 1) then
          ⟨some ("Erro ao atualizar estoque do produto " ++ p.nome), db1⟩
        else
          let db2 := { db1 with produtos := db1.produtos.map (fun q =>
            if q.id == item.id then { q with quantidade := nova } else q) }
          let db3 := if oracle (k + 2) ∨ ¬(0 < item.qtd) then db2
            else { db2 with historico := db2.historico ++ [⟨item.id, "saida", item.qtd, now⟩] }
          commitLoop oracle now vid rest db3 (k + 3)

/-- Result of registrar_venda_completa: the returned pair (venda_id or
None, message) plus the database it leaves behind. -/
structure RegResult where
  venda_id : Option Nat
  msg : String
  db : DB
deriving DecidableEq

/-- registrar_venda_completa (logica_banco.py:568-652).  Guards on an empty
cart and a non-positive total, runs the read-only pre-flight, INSERTs the
vendas header (statement 0, subject to the vendas CHECKs valor_pago ≥ 0
and troco ≥ 0 — total ≥ 0 already holds by the guard), then runs the
per-line commit loop.  On any failure the function returns None with the
message of the failing step and whatever the earlier statements already
committed. -/
def registrar_venda_completa (oracle : Nat → Bool) (now : String) (db : DB)
    (cliente_id : Option Nat) (itens_carrinho : List ItemCarrinho) (total : Rat)
    (forma_pagamento : String) (valor_pago troco : Rat) : RegResult :=
  if itens_carrinho.isEmpty then ⟨none, "Carrinho vazio", db⟩
  else if total ≤ 0 then ⟨none, "Total inválido", db⟩
  else
    match preflight db itens_carrinho with
    | some msg => ⟨none, msg, db⟩
    | none =>
      if oracle 0 ∨ ¬(0 ≤ valor_pago ∧ 0 ≤ troco) then
        ⟨none, "Erro ao registrar venda", db⟩
      else
        let vid := db.nextVendaId
        let db1 := { db with
          vendas := db.vendas ++
            [⟨vid, cliente_id, now, total, forma_pagamento, valor_pago, troco⟩],
          nextVendaId := vid + 1 }
        match commitLoop oracle now vid itens_carrinho db1 1 with
        | ⟨some msg, db2⟩ => ⟨none, msg, db2⟩
        | ⟨none, db2⟩ => ⟨some vid, "Venda registrada com sucesso", db2⟩

/-! ## Checkout route (finalizar_venda, app.py:683-727) -/

/-- The request JSON of /caixa/finalizar.  The code reads itens,
cliente_id, forma_pagamento, valor_pago and troco; a client-declared
subtotal (total_cliente here) may be present but is never read. -/
structure DadosVenda where
  itens : List ItemCarrinho
  cliente_id : Option Nat
  forma_pagamento : Option String
  valor_pago : Option Rat
  troco : Option Rat
  total_cliente : Option Rat
deriving DecidableEq

/-- HTTP-level outcome of finalizar_venda: 200 with the new sale id, or an
error payload with its status code. -/
inductive Resp where
  | ok (venda_id : Nat)
  | erro (msg : String) (code : Nat)
deriving DecidableEq

/-- The validation loop of finalizar_venda (app.py:697-705): resolve each
line, fail 400 on an absent product or a quantity above stock, and
accumulate the authoritative total from the server-side prices. -/
def app_preflight (db : DB) : List ItemCarrinho → Rat → Except String Rat
  | [], acc => .ok acc
  | item :: rest, acc =>
    match buscar_produto_por_id db item.id with
    | none => .error ("Produto com ID " ++ toString item.id ++ " não encontrado.")
    | some p =>
      if p.quantidade < item.qtd then .error ("Estoque insuficiente para " ++ p.nome ++ ".")
      else app_preflight db rest (acc + p.preco * (item.qtd : Rat))

/-- finalizar_venda (app.py:683-727).  Rejects an empty cart, validates
and recomputes the total server-side, then calls the engine with the
recomputed total, defaulting forma_pagamento to Dinheiro, valor_pago to
the recomputed total and troco to 0.  The Python truthiness test
if venda_id treats 0 like None (ids start at 1, so only None occurs). -/
def finalizar_venda (oracle : Nat → Bool) (now : String) (db : DB)
    (dados : DadosVenda) : Resp × DB :=
  if dados.itens.isEmpty then
    (.erro "Dados da venda inválidos ou carrinho vazio." 400, db)
  else
    match app_preflight db dados.itens 0 with
    | .error msg => (.erro msg 400, db)
    | .ok total_recalculado =>
      let r := registrar_venda_completa oracle now db dados.cliente_id dados.itens
        total_recalculado (dados.forma_pagamento.getD "Dinheiro")
        (dados.valor_pago.getD total_recalculado) (dados.troco.getD 0)
      match r.venda_id with
      | some v => if v == 0 then (.erro r.msg 400, r.db) else (.ok v, r.db)
      | none => (.erro r.msg 400, r.db)

/-! ## Operation sequences -/

/-- The mutating operations reachable from the application routes that the
claims quantify over. -/
inductive Op where
  | addProduto (now nome : String) (preco : Rat) (qtd : Int) (codigo : Option String)
  | updProduto (id : Nat) (nome : String) (preco : Rat) (qtd : Int) (codigo : Option String)
  | delProduto (id : Nat)
  | addCliente (nome : String) (telefone email : Option String)
  | delCliente (id : Nat)
  | checkout (oracle : Nat → Bool) (now : String) (dados : DadosVenda)

/-- The database state after one operation. -/
def stepDB (op : Op) (db : DB) : DB :=
  match op with
  | .addProduto now nome preco qtd codigo => (adicionar_produto db now nome preco qtd codigo).2
  | .updProduto id nome preco qtd codigo => (atualizar_produto db id nome preco qtd codigo).2
  | .delProduto id => (excluir_produto db id).2
  | .addCliente nome telefone email => (adicionar_cliente db nome telefone email).2
  | .delCliente id => (excluir_cliente db id).2
  | .checkout oracle now dados => (finalizar_venda oracle now db dados).2

/-- The database state after a sequence of operations. -/
def runDB : List Op → DB → DB
  | [], db => db
  | op :: rest, db => runDB rest (stepDB op db)

/-- Whether one operation reported success when it was a checkout (other
operations are unconstrained). -/
def stepOkB (op : Op) (db : DB) : Bool :=
  match op with
  | .checkout oracle now dados =>
    match (finalizar_venda oracle now db dados).1 with
    | .ok _ => true
    | .erro _ _ => false
  | _ => true

/-- Whether every checkout in the sequence reported success. -/
def runOkB : List Op → DB → Bool
  | [], _ => true
  | op :: rest, db => stepOkB op db && runOkB rest (stepDB op db)

/-! ## Derived views used by the claims -/

/-- Sum of quantity times captured unit price over the items of one sale,
the right-hand side of the total invariant. -/
def sumItens (db : DB) (vid : Nat) : Rat :=
  ((db.itens.filter (fun r => r.venda_id == vid)).map
    (fun r => (r.quantidade : Rat) * r.preco_unitario)).sum

/-- Server-side price of a product id, 0 when absent (only applied where
presence is known). -/
def precoD (db : DB) (id : Nat) : Rat :=
  match buscar_produto_por_id db id with
  | some p => p.preco
  | none => 0

/-- The server-side total of a cart: sum of current price times requested
quantity over the lines. -/
def serverSum (db : DB) (itens : List ItemCarrinho) : Rat :=
  (itens.map (fun it => precoD db it.id * (it.qtd : Rat))).sum

/-- The item rows that a fully successful commit of the cart appends,
carrying the server prices at call time. -/
def mkRows (db : DB) (vid : Nat) (itens : List ItemCarrinho) : List ItemVenda :=
  itens.map (fun it => ⟨vid, it.id, it.qtd, precoD db it.id⟩)

/-- A cart line the pre-flight must reject: product absent, or requested
quantity above stock. -/
def badLineB (db : DB) (it : ItemCarrinho) : Bool :=
  match buscar_produto_por_id db it.id with
  | none => true
  | some p => decide (p.quantidade < it.qtd)

/-- Plain case-sensitive contiguous-substring test (the reading of
occurs as a substring in claim C10). -/
def prefixB : List Char → List Char → Bool
  | [], _ => true
  | _ :: _, [] => false
  | a :: as, b :: bs => a == b && prefixB as bs

/-- Whether needle occurs as a contiguous substring of hay. -/
def substrB : List Char → List Char → Bool
  | n, [] => prefixB n []
  | n, h :: hs => prefixB n (h :: hs) || substrB n hs

/-- The identically-false oracle: no statement raises a storage error. -/
def noFail : Nat → Bool := fun _ => false

/-! ## Concrete fixtures for the witnesses and counterexamples -/

/-- Two products in stock, nothing else. -/
def dbA : DB :=
  ⟨[⟨1, "Arroz", 5, 10, some "111"⟩, ⟨2, "Feijao", 2, 5, none⟩], [], [], [], [], 3, 1, 1⟩

/-- One customer referenced by one past sale. -/
def dbC : DB :=
  ⟨[], [⟨1, "Ana", none, none⟩], [⟨1, some 1, "d0", 10, "Dinheiro", 10, 0⟩], [], [], 1, 2, 2⟩

/-- One product named Milk carrying barcode 789. -/
def dbM : DB := ⟨[⟨1, "Milk", 5, 1, some "789"⟩], [], [], [], [], 2, 1, 1⟩

/-! ## Claim C1 -/

/-- C1.  The claim states the commit phase is all-or-nothing: if any
sub-step fails, no Sale row from the attempt is observable afterward.
The code violates this: execute_query commits every statement on its own
(logica_banco.py:76), so when the itens_venda INSERT (statement 1) raises,
the vendas header inserted by statement 0 is already durable and the
rollback at logica_banco.py:617 has nothing to undo.  Concretely: a
one-line cart whose item INSERT fails returns failure, yet the final
state contains the Sale header row of the attempt. -/
theorem C1_commit_not_atomic :
    (registrar_venda_completa (fun n => n == 1) "d1" dbA none [⟨1, 2, none⟩] 10
      "Dinheiro" 10 0).venda_id = none ∧
    (registrar_venda_completa (fun n => n == 1) "d1" dbA none [⟨1, 2, none⟩] 10
      "Dinheiro" 10 0).msg = "Erro ao registrar item da venda" ∧
    (registrar_venda_completa (fun n => n == 1) "d1" dbA none [⟨1, 2, none⟩] 10
      "Dinheiro" 10 0).db.vendas =
      [⟨1, none, "d1", 10, "Dinheiro", 10, 0⟩] := by
  decide

/-! ## Claim C8 -/

/-- C8.  Deleting a customer referenced by a past sale succeeds and leaves
the sale's historical record (total, items, timestamp) untouched — that
part of the claim holds.  But the claim also states the sale's customer
reference is set to none: it is not.  PRAGMA foreign_keys is never
executed, so the schema clause ON DELETE SET NULL (logica_banco.py:149)
is dead and the sale keeps a dangling reference to the deleted customer.
The schema clause documents the intent, making this a code bug rather
than a spec error. -/
theorem C8_customer_delete_leaves_dangling_reference :
    (excluir_cliente dbC 1).1 = (true, "Cliente excluído com sucesso") ∧
    (excluir_cliente dbC 1).2.clientes = [] ∧
    (excluir_cliente dbC 1).2.vendas = dbC.vendas ∧
    (excluir_cliente dbC 1).2.vendas.map (fun v => v.cliente_id) = [some 1] := by
  decide

/-! ## Claim C2, counterexample -/

/-- C2, counterexample to the claim as stated.  A direct call of the
sale-commit operation whose cart has a line requesting more than stock
(50 of product 1, stock 10) but whose declared total is 0 fails with
Total inválido (logica_banco.py:573-574) before the pre-flight pass ever
runs, not with the InsufficientStock error naming the product that the
claim requires; the database is still unchanged.  The corresponding
error for this input would be the concrete insufficiency message shown. -/
theorem C2_total_invalido_preempts_preflight :
    badLineB dbA ⟨1, 50, none⟩ = true ∧
    (registrar_venda_completa noFail "d1" dbA none [⟨1, 50, none⟩] 0
      "Dinheiro" 0 0).msg = "Total inválido" ∧
    "Total inválido" ≠ insuffMsg "Arroz" 10 50 ∧
    "Total inválido" ≠ nfMsg 1 ∧
    (registrar_venda_completa noFail "d1" dbA none [⟨1, 50, none⟩] 0
      "Dinheiro" 0 0).db = dbA := by
  decide

/-! ## Claim C3, counterexample -/

/-- C3, counterexample.  Through the checkout flow, a cart that lists the
same product twice (7 and then 6 units against a stock of 10) passes both
read-only pre-flights, because each line is compared with the unmodified
stock; during the commit loop the second line's item row is inserted
before the non-negativity re-check aborts, and the per-statement commits
make everything already written durable.  The attempt fails, yet the
final state holds a committed Sale row with total 67 whose persisted
items sum to 65: the claimed equality is violated on a reachable state. -/
theorem C3_partial_commit_breaks_total :
    (finalizar_venda noFail "d1" dbA
      ⟨[⟨1, 7, none⟩, ⟨1, 6, none⟩, ⟨2, 1, none⟩], none, none, none, none, none⟩).1 =
      .erro "Erro: Estoque ficaria negativo para Arroz" 400 ∧
    (finalizar_venda noFail "d1" dbA
      ⟨[⟨1, 7, none⟩, ⟨1, 6, none⟩, ⟨2, 1, none⟩], none, none, none, none, none⟩).2.vendas.map
      (fun v => (v.id, v.total)) = [(1, (67 : Rat))] ∧
    sumItens (finalizar_venda noFail "d1" dbA
      ⟨[⟨1, 7, none⟩, ⟨1, 6, none⟩, ⟨2, 1, none⟩], none, none, none, none, none⟩).2 1 =
      (65 : Rat) ∧
    (65 : Rat) ≠ 67 := by
  decide

/-! ## Claim C6, counterexample -/

/-- C6, counterexample.  The historico_estoque INSERT is the only commit
statement whose cursor result the source never checks
(logica_banco.py:638-641).  When exactly that statement fails (statement
index 3 for a one-line cart), the checkout still reports success, the
item row exists and the stock was decremented, but no saida movement row
exists for the decrement. -/
theorem C6_movement_insert_unchecked :
    (finalizar_venda (fun n => n == 3) "d1" dbA
      ⟨[⟨1, 3, none⟩], none, none, none, none, none⟩).1 = .ok 1 ∧
    (finalizar_venda (fun n => n == 3) "d1" dbA
      ⟨[⟨1, 3, none⟩], none, none, none, none, none⟩).2.itens =
      [⟨1, 1, 3, 5⟩] ∧
    (finalizar_venda (fun n => n == 3) "d1" dbA
      ⟨[⟨1, 3, none⟩], none, none, none, none, none⟩).2.produtos.map
      (fun p => (p.id, p.quantidade)) = [(1, (7 : Int)), (2, 5)] ∧
    (finalizar_venda (fun n => n == 3) "d1" dbA
      ⟨[⟨1, 3, none⟩], none, none, none, none, none⟩).2.historico = [] := by
  decide

/-! ## Claim C7, counterexample -/

/-- C7, counterexample to the logging half of the claim.  finalizar_venda
never reads the client-declared subtotal: a request declaring 100 where
the server computes 15 (a divergence far above 0.01) produces a response
and final state identical to those of a request declaring exactly 15, and
the sale commits at the server total.  Nothing anywhere in the outcome
records the discrepancy, so the discrepancy is logged is false — there is
no epsilon comparison or logging in app.py:683-727 at all. -/
theorem C7_divergence_not_logged :
    finalizar_venda noFail "d1" dbA ⟨[⟨1, 3, none⟩], none, none, none, none, some 100⟩ =
      finalizar_venda noFail "d1" dbA ⟨[⟨1, 3, none⟩], none, none, none, none, some 15⟩ ∧
    (finalizar_venda noFail "d1" dbA
      ⟨[⟨1, 3, none⟩], none, none, none, none, some 100⟩).1 = .ok 1 ∧
    (finalizar_venda noFail "d1" dbA
      ⟨[⟨1, 3, none⟩], none, none, none, none, some 100⟩).2.vendas.map (fun v => v.total) =
      [(15 : Rat)] ∧
    ((100 : Rat) - 15 > 1 / 100) := by
  decide

/-! ## Claim C10, counterexample -/

/-- C10, counterexample.  The lookup-by-code query compares the name with
LIKE, which in sqlite is ASCII-case-insensitive: the query MILK returns
the product named Milk, whose barcode is 789 and whose name does not
contain MILK as a (case-sensitive) substring — so the returned product
need satisfy neither disjunct of the claim as stated.  (Wildcard
characters percent and underscore in the query break the substring
reading in the same way.) -/
theorem C10_like_not_substring :
    buscar_produto_por_codigo dbM "MILK" = some ⟨1, "Milk", 5, 1, some "789"⟩ ∧
    some "MILK" ≠ (some "789" : Option String) ∧
    substrB "MILK".data "Milk".data = false ∧
    sanitizar_input "MILK" = "MILK" := by
  decide

/-! ## Lemma layer: effects of single statements -/

/-- Name and price of a product id, the part of a produtos row that the
commit loop never modifies. -/
def pinfo (db : DB) (i : Nat) : Option (String × Rat) :=
  (buscar_produto_por_id db i).map (fun p => (p.nome, p.preco))

/-- The stock invariant: every product row has a non-negative quantity. -/
def qtdOk (db : DB) : Prop := ∀ p ∈ db.produtos, 0 ≤ p.quantidade

/-- The saida movement rows a fully successful commit of the cart appends. -/
def saidaRows (now : String) (itens : List ItemCarrinho) : List Movimento :=
  itens.map (fun it => ⟨it.id, "saida", it.qtd, now⟩)

theorem buscar_after_update (db : DB) (id : Nat) (nova : Int) (i : Nat) :
    buscar_produto_por_id
      { db with produtos := db.produtos.map (fun q =>
          if q.id == id then { q with quantidade := nova } else q) } i =
    (buscar_produto_por_id db i).map (fun q =>
      if q.id == id then { q with quantidade := nova } else q) := by
  unfold buscar_produto_por_id
  rw [List.find?_map]
  have hf : ((fun p : Produto => p.id == i) ∘ fun q : Produto =>
      if q.id == id then { q with quantidade := nova } else q) =
      (fun p : Produto => p.id == i) := by
    funext q
    simp only [Function.comp]
    by_cases h : q.id = id
    · rw [if_pos (by simp [h])]
    · rw [if_neg (by simp [h])]
  rw [hf]

theorem pinfo_after_update (db : DB) (id : Nat) (nova : Int) (i : Nat) :
    pinfo { db with produtos := db.produtos.map (fun q =>
        if q.id == id then { q with quantidade := nova } else q) } i = pinfo db i := by
  unfold pinfo
  rw [buscar_after_update]
  cases h : buscar_produto_por_id db i with
  | none => rfl
  | some p => by_cases hp : p.id = id <;> simp [hp]

theorem precoD_congr {db db' : DB} (h : ∀ i, pinfo db i = pinfo db' i) (i : Nat) :
    precoD db i = precoD db' i := by
  have hi := h i
  unfold pinfo at hi
  unfold precoD
  cases h1 : buscar_produto_por_id db i with
  | none => cases h2 : buscar_produto_por_id db' i with
    | none => rfl
    | some q => rw [h1, h2] at hi; simp at hi
  | some p => cases h2 : buscar_produto_por_id db' i with
    | none => rw [h1, h2] at hi; simp at hi
    | some q =>
      rw [h1, h2] at hi
      simp at hi
      exact hi.2

theorem mkRows_congr {db db' : DB} (h : ∀ i, pinfo db i = pinfo db' i)
    (vid : Nat) (itens : List ItemCarrinho) :
    mkRows db vid itens = mkRows db' vid itens := by
  unfold mkRows
  exact List.map_congr_left fun it _ => by rw [precoD_congr h]

theorem qtdOk_after_update {db : DB} (id : Nat) {nova : Int}
    (hdb : qtdOk db) (hnova : 0 ≤ nova) :
    qtdOk { db with produtos := db.produtos.map (fun q =>
        if q.id == id then { q with quantidade := nova } else q) } := by
  intro p hp
  simp only [List.mem_map] at hp
  obtain ⟨q, hq, rfl⟩ := hp
  by_cases h : q.id = id <;> simp [h]
  · exact hnova
  · exact hdb q hq

/-! ## Lemma layer: the commit loop -/

theorem commitLoop_frame (oracle : Nat → Bool) (now : String) (vid : Nat) :
    ∀ (itens : List ItemCarrinho) (db : DB) (k : Nat),
      (commitLoop oracle now vid itens db k).db.vendas = db.vendas ∧
      (commitLoop oracle now vid itens db k).db.clientes = db.clientes ∧
      (commitLoop oracle now vid itens db k).db.nextVendaId = db.nextVendaId ∧
      (commitLoop oracle now vid itens db k).db.nextProdutoId = db.nextProdutoId ∧
      (commitLoop oracle now vid itens db k).db.nextClienteId = db.nextClienteId ∧
      (∀ i, pinfo (commitLoop oracle now vid itens db k).db i = pinfo db i) := by
  intro itens
  induction itens with
  | nil => intro db k; exact ⟨rfl, rfl, rfl, rfl, rfl, fun _ => rfl⟩
  | cons item rest ih =>
    intro db k
    cases hb : buscar_produto_por_id db item.id with
    | none =>
      simp [commitLoop, hb]
    | some p =>
      simp only [commitLoop, hb]
      by_cases h1 : oracle k = true ∨ ¬(0 < item.qtd ∧ 0 < p.preco)
      · rw [if_pos h1]; exact ⟨rfl, rfl, rfl, rfl, rfl, fun _ => rfl⟩
      · rw [if_neg h1]
        by_cases h2 : p.quantidade - item.qtd < 0
        · rw [if_pos h2]; exact ⟨rfl, rfl, rfl, rfl, rfl, fun _ => rfl⟩
        · rw [if_neg h2]
          by_cases h3 : oracle (k + 1) = true
          · rw [if_pos h3]; exact ⟨rfl, rfl, rfl, rfl, rfl, fun _ => rfl⟩
          · rw [if_neg h3]
            by_cases h4 : oracle (k + 2) = true ∨ ¬(0 < item.qtd)
            · rw [if_pos h4]
              exact ⟨(ih _ _).1, (ih _ _).2.1, (ih _ _).2.2.1, (ih _ _).2.2.2.1,
                (ih _ _).2.2.2.2.1,
                fun i => ((ih _ _).2.2.2.2.2 i).trans
                  (pinfo_after_update db item.id (p.quantidade - item.qtd) i)⟩
            · rw [if_neg h4]
              exact ⟨(ih _ _).1, (ih _ _).2.1, (ih _ _).2.2.1, (ih _ _).2.2.2.1,
                (ih _ _).2.2.2.2.1,
                fun i => ((ih _ _).2.2.2.2.2 i).trans
                  (pinfo_after_update db item.id (p.quantidade - item.qtd) i)⟩

theorem commitLoop_qtdOk (oracle : Nat → Bool) (now : String) (vid : Nat) :
    ∀ (itens : List ItemCarrinho) (db : DB) (k : Nat),
      qtdOk db → qtdOk (commitLoop oracle now vid itens db k).db := by
  intro itens
  induction itens with
  | nil => intro db k h; exact h
  | cons item rest ih =>
    intro db k h
    cases hb : buscar_produto_por_id db item.id with
    | none => simp only [commitLoop, hb]; exact h
    | some p =>
      simp only [commitLoop, hb]
      by_cases h1 : oracle k = true ∨ ¬(0 < item.qtd ∧ 0 < p.preco)
      · rw [if_pos h1]; exact h
      · rw [if_neg h1]
        by_cases h2 : p.quantidade - item.qtd < 0
        · rw [if_pos h2]; exact h
        · rw [if_neg h2]
          by_cases h3 : oracle (k + 1) = true
          · rw [if_pos h3]; exact h
          · rw [if_neg h3]
            by_cases h4 : oracle (k + 2) = true ∨ ¬(0 < item.qtd)
            · rw [if_pos h4]
              exact ih _ _ (qtdOk_after_update item.id h (by omega))
            · rw [if_neg h4]
              exact ih _ _ (qtdOk_after_update item.id h (by omega))

theorem commitLoop_ok_itens (oracle : Nat → Bool) (now : String) (vid : Nat) :
    ∀ (itens : List ItemCarrinho) (db : DB) (k : Nat),
      (commitLoop oracle now vid itens db k).err = none →
      (commitLoop oracle now vid itens db k).db.itens = db.itens ++ mkRows db vid itens := by
  intro itens
  induction itens with
  | nil => intro db k _; simp [commitLoop, mkRows]
  | cons item rest ih =>
    intro db k herr
    cases hb : buscar_produto_por_id db item.id with
    | none => simp only [commitLoop, hb] at herr; exact absurd herr (by simp)
    | some p =>
      simp only [commitLoop, hb] at herr ⊢
      by_cases h1 : oracle k = true ∨ ¬(0 < item.qtd ∧ 0 < p.preco)
      · rw [if_pos h1] at herr; exact absurd herr (by simp)
      · rw [if_neg h1] at herr ⊢
        by_cases h2 : p.quantidade - item.qtd < 0
        · rw [if_pos h2] at herr; exact absurd herr (by simp)
        · rw [if_neg h2] at herr ⊢
          by_cases h3 : oracle (k + 1) = true
          · rw [if_pos h3] at herr; exact absurd herr (by simp)
          · rw [if_neg h3] at herr ⊢
            by_cases h4 : oracle (k + 2) = true ∨ ¬(0 < item.qtd)
            · rw [if_pos h4] at herr ⊢
              rw [ih _ _ herr]
              have hcongr : mkRows
                  { db with
                    produtos := db.produtos.map (fun q =>
                      if q.id == item.id then { q with quantidade := p.quantidade - item.qtd } else q),
                    itens := db.itens ++ [⟨vid, item.id, item.qtd, p.preco⟩] } vid rest =
                  mkRows db vid rest :=
                mkRows_congr (fun i => pinfo_after_update db item.id (p.quantidade - item.qtd) i) vid rest
              rw [hcongr]
              simp [mkRows, precoD, hb]
            · rw [if_neg h4] at herr ⊢
              rw [ih _ _ herr]
              have hcongr : mkRows
                  { db with
                    produtos := db.produtos.map (fun q =>
                      if q.id == item.id then { q with quantidade := p.quantidade - item.qtd } else q),
                    itens := db.itens ++ [⟨vid, item.id, item.qtd, p.preco⟩],
                    historico := db.historico ++ [⟨item.id, "saida", item.qtd, now⟩] } vid rest =
                  mkRows db vid rest :=
                mkRows_congr (fun i => pinfo_after_update db item.id (p.quantidade - item.qtd) i) vid rest
              rw [hcongr]
              simp [mkRows, precoD, hb]

theorem commitLoop_noFail_hist (now : String) (vid : Nat) :
    ∀ (itens : List ItemCarrinho) (db : DB) (k : Nat),
      (commitLoop noFail now vid itens db k).err = none →
      (commitLoop noFail now vid itens db k).db.historico = db.historico ++ saidaRows now itens := by
  intro itens
  induction itens with
  | nil => intro db k _; simp [commitLoop, saidaRows]
  | cons item rest ih =>
    intro db k herr
    cases hb : buscar_produto_por_id db item.id with
    | none => simp only [commitLoop, hb] at herr; exact absurd herr (by simp)
    | some p =>
      simp only [commitLoop, hb] at herr ⊢
      by_cases h1 : noFail k = true ∨ ¬(0 < item.qtd ∧ 0 < p.preco)
      · rw [if_pos h1] at herr; exact absurd herr (by simp)
      · rw [if_neg h1] at herr ⊢
        have hqtd : 0 < item.qtd := by
          rcases not_or.mp h1 with ⟨-, hand⟩
          exact (not_not.mp hand).1
        by_cases h2 : p.quantidade - item.qtd < 0
        · rw [if_pos h2] at herr; exact absurd herr (by simp)
        · rw [if_neg h2] at herr ⊢
          rw [if_neg (show ¬(noFail (k + 1) = true) by simp [noFail])] at herr ⊢
          rw [if_neg (show ¬(noFail (k + 2) = true ∨ ¬(0 < item.qtd)) by
            simp [noFail, hqtd])] at herr ⊢
          rw [ih _ _ herr]
          simp [saidaRows]

/-! ## Lemma layer: the stock invariant across every operation -/

theorem qtdOk_of_produtos_eq {db db' : DB} (h : db'.produtos = db.produtos)
    (hdb : qtdOk db) : qtdOk db' := by
  intro p hp
  exact hdb p (h ▸ hp)

theorem qtdOk_adicionar_produto (db : DB) (now nome : String) (preco : Rat)
    (qtd : Int) (codigo : Option String) (h : qtdOk db) :
    qtdOk (adicionar_produto db now nome preco qtd codigo).2 := by
  have hins : ∀ (c : Option String) (l : List Movimento), 0 ≤ qtd →
      qtdOk (DB.mk
        (db.produtos ++ [⟨db.nextProdutoId, sanitizar_input nome, preco, qtd, c⟩])
        db.clientes db.vendas db.itens l (db.nextProdutoId + 1) db.nextClienteId
        db.nextVendaId) := by
    intro c l h0 p hp
    rcases List.mem_append.mp hp with hp | hp
    · exact h p hp
    · rcases List.mem_singleton.mp hp with rfl
      exact h0
  simp only [adicionar_produto]
  by_cases h1 : sanitizar_input nome = "" ∨ (sanitizar_input nome).length < 2
  · rw [if_pos h1]; exact h
  rw [if_neg h1]
  by_cases h2 : (!validar_preco preco) = true
  · rw [if_pos h2]; exact h
  rw [if_neg h2]
  by_cases h3 : (!validar_quantidade qtd) = true
  · rw [if_pos h3]; exact h
  rw [if_neg h3]
  have hq0 : 0 ≤ qtd := by simpa [validar_quantidade] using h3
  cases hc : sanitizeOpt codigo with
  | some c =>
    simp only
    by_cases h4 : (db.produtos.any fun p => p.codigo_barras == some c) = true
    · rw [if_pos h4]; exact h
    · rw [if_neg h4]
      by_cases h5 : 0 < qtd
      · rw [if_pos h5]; exact hins (some c) _ hq0
      · rw [if_neg h5]; exact hins (some c) _ hq0
  | none =>
    simp only
    by_cases h5 : 0 < qtd
    · rw [if_pos h5]; exact hins none _ hq0
    · rw [if_neg h5]; exact hins none _ hq0

theorem qtdOk_atualizar_produto (db : DB) (id : Nat) (nome : String) (preco : Rat)
    (qtd : Int) (codigo : Option String) (h : qtdOk db) :
    qtdOk (atualizar_produto db id nome preco qtd codigo).2 := by
  simp only [atualizar_produto]
  by_cases h1 : sanitizar_input nome = "" ∨ (sanitizar_input nome).length < 2
  · rw [if_pos h1]; exact h
  rw [if_neg h1]
  by_cases h2 : (!validar_preco preco) = true
  · rw [if_pos h2]; exact h
  rw [if_neg h2]
  by_cases h3 : (!validar_quantidade qtd) = true
  · rw [if_pos h3]; exact h
  rw [if_neg h3]
  have hq0 : 0 ≤ qtd := by simpa [validar_quantidade] using h3
  by_cases h4 : (match sanitizeOpt codigo with
    | some c => db.produtos.any fun p => p.codigo_barras == some c && p.id != id
    | none => false) = true
  · rw [if_pos h4]; exact h
  · rw [if_neg h4]
    intro p hp
    simp only [List.mem_map] at hp
    obtain ⟨q, hq2, rfl⟩ := hp
    by_cases hid : q.id = id
    · rw [if_pos (by simp [hid])]; exact hq0
    · rw [if_neg (by simp [hid])]; exact h q hq2

theorem qtdOk_excluir_produto (db : DB) (id : Nat) (h : qtdOk db) :
    qtdOk (excluir_produto db id).2 := by
  unfold excluir_produto
  split
  · intro p hp
    exact h p (List.mem_of_mem_filter hp)
  · exact h

theorem qtdOk_registrar (oracle : Nat → Bool) (now : String) (db : DB)
    (cid : Option Nat) (itens : List ItemCarrinho) (total : Rat) (fp : String)
    (vp tr : Rat) (h : qtdOk db) :
    qtdOk (registrar_venda_completa oracle now db cid itens total fp vp tr).db := by
  unfold registrar_venda_completa
  split
  · exact h
  split
  · exact h
  cases hpf : preflight db itens with
  | some m => exact h
  | none =>
    simp only
    split
    · exact h
    · cases hcl : commitLoop oracle now db.nextVendaId itens
        { db with
          vendas := db.vendas ++ [⟨db.nextVendaId, cid, now, total, fp, vp, tr⟩],
          nextVendaId := db.nextVendaId + 1 } 1 with
      | mk err db2 =>
        have h2 := commitLoop_qtdOk oracle now db.nextVendaId itens
          { db with
            vendas := db.vendas ++ [⟨db.nextVendaId, cid, now, total, fp, vp, tr⟩],
            nextVendaId := db.nextVendaId + 1 } 1 h
        rw [hcl] at h2
        cases err with
        | some m => exact h2
        | none => exact h2

theorem qtdOk_finalizar (oracle : Nat → Bool) (now : String) (db : DB)
    (dados : DadosVenda) (h : qtdOk db) :
    qtdOk (finalizar_venda oracle now db dados).2 := by
  unfold finalizar_venda
  split
  · exact h
  cases hpf : app_preflight db dados.itens 0 with
  | error m => exact h
  | ok total =>
    simp only
    have hr := qtdOk_registrar oracle now db dados.cliente_id dados.itens total
      (dados.forma_pagamento.getD "Dinheiro") (dados.valor_pago.getD total)
      (dados.troco.getD 0) h
    cases hv : (registrar_venda_completa oracle now db dados.cliente_id dados.itens total
        (dados.forma_pagamento.getD "Dinheiro") (dados.valor_pago.getD total)
        (dados.troco.getD 0)).venda_id with
    | some v =>
      simp only [hv]
      split <;> exact hr
    | none => simp only [hv]; exact hr

theorem qtdOk_adicionar_cliente (db : DB) (nome : String) (telefone email : Option String)
    (h : qtdOk db) : qtdOk (adicionar_cliente db nome telefone email).2 := by
  simp only [adicionar_cliente]
  by_cases h1 : sanitizar_input nome = "" ∨ (sanitizar_input nome).length < 2
  · rw [if_pos h1]; exact h
  rw [if_neg h1]
  by_cases h2 : (truthyOpt (sanitizeOpt email) &&
      !validar_email ((sanitizeOpt email).getD "")) = true
  · rw [if_pos h2]; exact h
  rw [if_neg h2]
  by_cases h3 : (match sanitizeOpt email with
    | none => true
    | some e => e.data.contains '@') = true
  · rw [if_pos h3]; exact qtdOk_of_produtos_eq rfl h
  · rw [if_neg h3]; exact h

theorem qtdOk_excluir_cliente (db : DB) (id : Nat) (h : qtdOk db) :
    qtdOk (excluir_cliente db id).2 := by
  unfold excluir_cliente
  split
  · exact qtdOk_of_produtos_eq rfl h
  · exact h

theorem qtdOk_step (op : Op) (db : DB) (h : qtdOk db) : qtdOk (stepDB op db) := by
  cases op with
  | addProduto now nome preco qtd codigo =>
    exact qtdOk_adicionar_produto db now nome preco qtd codigo h
  | updProduto id nome preco qtd codigo =>
    exact qtdOk_atualizar_produto db id nome preco qtd codigo h
  | delProduto id => exact qtdOk_excluir_produto db id h
  | addCliente nome telefone email => exact qtdOk_adicionar_cliente db nome telefone email h
  | delCliente id => exact qtdOk_excluir_cliente db id h
  | checkout oracle now dados => exact qtdOk_finalizar oracle now db dados h

theorem qtdOk_run : ∀ (ops : List Op) (db : DB), qtdOk db → qtdOk (runDB ops db) := by
  intro ops
  induction ops with
  | nil => intro db h; exact h
  | cons op rest ih => intro db h; exact ih _ (qtdOk_step op db h)

/-! ## Claim C4 -/

/-- C4.  After any sequence of operations starting from the fresh
database, every product row has a non-negative quantity.  Product
creation and update validate the quantity with validar_quantidade
(requiring it non-negative), and the commit loop of the sale engine
re-verifies the decremented quantity before each UPDATE, failing with the
stock-would-go-negative error and leaving the row untouched otherwise —
so no path, including the failure paths, writes a negative quantity. -/
theorem C4_quantidade_nonneg (ops : List Op) : qtdOk (runDB ops db0) := by
  refine qtdOk_run ops db0 ?_
  intro p hp
  cases hp

/-! ## Lemma layer: the pre-flight pass -/

theorem preflight_of_bad (db : DB) :
    ∀ itens : List ItemCarrinho, itens.any (badLineB db) = true →
      ∃ it ∈ itens,
        (buscar_produto_por_id db it.id = none ∧ preflight db itens = some (nfMsg it.id)) ∨
        (∃ p, buscar_produto_por_id db it.id = some p ∧ p.quantidade < it.qtd ∧
          preflight db itens = some (insuffMsg p.nome p.quantidade it.qtd)) := by
  intro itens
  induction itens with
  | nil => intro hbad; simp at hbad
  | cons item rest ih =>
    intro hbad
    cases hb : buscar_produto_por_id db item.id with
    | none =>
      refine ⟨item, List.mem_cons_self item rest, Or.inl ⟨hb, ?_⟩⟩
      simp [preflight, hb]
    | some p =>
      by_cases hq : p.quantidade < item.qtd
      · refine ⟨item, List.mem_cons_self item rest, Or.inr ⟨p, hb, hq, ?_⟩⟩
        simp [preflight, hb, hq]
      · have hbad2 : rest.any (badLineB db) = true := by
          simp only [List.any_cons, Bool.or_eq_true] at hbad
          rcases hbad with hh | hh
          · exfalso
            simp only [badLineB, hb] at hh
            exact hq (by simpa using hh)
          · exact hh
        obtain ⟨it, hmem, hcase⟩ := ih hbad2
        have hpf : preflight db (item :: rest) = preflight db rest := by
          simp [preflight, hb, hq]
        refine ⟨it, List.mem_cons_of_mem _ hmem, ?_⟩
        rcases hcase with ⟨hn, hm⟩ | ⟨p2, hs, hq2, hm⟩
        · exact Or.inl ⟨hn, hpf.trans hm⟩
        · exact Or.inr ⟨p2, hs, hq2, hpf.trans hm⟩

theorem registrar_preflight_err (oracle : Nat → Bool) (now : String) (db : DB)
    (cid : Option Nat) (itens : List ItemCarrinho) (total : Rat) (fp : String)
    (vp tr : Rat) (hne : itens ≠ []) (ht : 0 < total) (m : String)
    (hm : preflight db itens = some m) :
    registrar_venda_completa oracle now db cid itens total fp vp tr = ⟨none, m, db⟩ := by
  simp only [registrar_venda_completa]
  rw [if_neg (by simp [hne])]
  rw [if_neg (not_le.mpr ht)]
  rw [hm]

/-! ## Lemma layer: the successful commit path -/

theorem registrar_success (oracle : Nat → Bool) (now : String) (db : DB)
    (cid : Option Nat) (itens : List ItemCarrinho) (total : Rat) (fp : String)
    (vp tr : Rat) (vid : Nat) (msg : String) (db' : DB)
    (h : registrar_venda_completa oracle now db cid itens total fp vp tr =
      ⟨some vid, msg, db'⟩) :
    vid = db.nextVendaId ∧
    db'.vendas = db.vendas ++ [⟨db.nextVendaId, cid, now, total, fp, vp, tr⟩] ∧
    db'.itens = db.itens ++ mkRows db db.nextVendaId itens ∧
    db'.clientes = db.clientes ∧
    db'.nextVendaId = db.nextVendaId + 1 ∧
    (∀ i, pinfo db' i = pinfo db i) ∧
    ((∀ n, oracle n = false) →
      db'.historico = db.historico ++ saidaRows now itens) := by
  simp only [registrar_venda_completa] at h
  by_cases h0 : itens.isEmpty = true
  · rw [if_pos h0] at h; simp at h
  rw [if_neg h0] at h
  by_cases h1 : total ≤ 0
  · rw [if_pos h1] at h; simp at h
  rw [if_neg h1] at h
  cases hpf : preflight db itens with
  | some m => simp only [hpf] at h; simp at h
  | none =>
    simp only [hpf] at h
    by_cases h2 : oracle 0 = true ∨ ¬(0 ≤ vp ∧ 0 ≤ tr)
    · rw [if_pos h2] at h; simp at h
    rw [if_neg h2] at h
    cases hcl : commitLoop oracle now db.nextVendaId itens
        { db with
          vendas := db.vendas ++ [⟨db.nextVendaId, cid, now, total, fp, vp, tr⟩],
          nextVendaId := db.nextVendaId + 1 } 1 with
    | mk err db2 =>
      rw [hcl] at h
      cases err with
      | some m => simp at h
      | none =>
        simp only [RegResult.mk.injEq, Option.some.injEq] at h
        obtain ⟨hvid, -, hdb⟩ := h
        subst hvid
        subst hdb
        have hfr := commitLoop_frame oracle now db.nextVendaId itens
          { db with
            vendas := db.vendas ++ [⟨db.nextVendaId, cid, now, total, fp, vp, tr⟩],
            nextVendaId := db.nextVendaId + 1 } 1
        rw [hcl] at hfr
        have herr : (LoopOut.mk none db2).err = none := rfl
        have hit := commitLoop_ok_itens oracle now db.nextVendaId itens
          { db with
            vendas := db.vendas ++ [⟨db.nextVendaId, cid, now, total, fp, vp, tr⟩],
            nextVendaId := db.nextVendaId + 1 } 1 (by rw [hcl])
        rw [hcl] at hit
        refine ⟨rfl, hfr.1, ?_, hfr.2.1, hfr.2.2.1, ?_, ?_⟩
        · rw [hit]
          have : mkRows
              { db with
                vendas := db.vendas ++ [⟨db.nextVendaId, cid, now, total, fp, vp, tr⟩],
                nextVendaId := db.nextVendaId + 1 } db.nextVendaId itens =
              mkRows db db.nextVendaId itens :=
            mkRows_congr (fun i => rfl) db.nextVendaId itens
          rw [this]
        · intro i
          exact hfr.2.2.2.2.2 i
        · intro hor
          have hor2 : oracle = noFail := funext fun n => by simp [noFail, hor n]
          subst hor2
          have hh := commitLoop_noFail_hist now db.nextVendaId itens
            { db with
              vendas := db.vendas ++ [⟨db.nextVendaId, cid, now, total, fp, vp, tr⟩],
              nextVendaId := db.nextVendaId + 1 } 1 (by rw [hcl])
          rw [hcl] at hh
          exact hh

theorem app_preflight_ok (db : DB) :
    ∀ (itens : List ItemCarrinho) (acc t : Rat),
      app_preflight db itens acc = .ok t → t = acc + serverSum db itens := by
  intro itens
  induction itens with
  | nil =>
    intro acc t h
    simp only [app_preflight, Except.ok.injEq] at h
    simp [serverSum, ← h]
  | cons item rest ih =>
    intro acc t h
    cases hb : buscar_produto_por_id db item.id with
    | none => simp [app_preflight, hb] at h
    | some p =>
      simp only [app_preflight, hb] at h
      by_cases hq : p.quantidade < item.qtd
      · rw [if_pos hq] at h; simp at h
      · rw [if_neg hq] at h
        rw [ih _ _ h]
        simp only [serverSum, List.map_cons, List.sum_cons, precoD, hb]
        ring

theorem preflight_none_of_app (db : DB) :
    ∀ (itens : List ItemCarrinho) (acc t : Rat),
      app_preflight db itens acc = .ok t → preflight db itens = none := by
  intro itens
  induction itens with
  | nil => intro acc t _; rfl
  | cons item rest ih =>
    intro acc t h
    cases hb : buscar_produto_por_id db item.id with
    | none => simp [app_preflight, hb] at h
    | some p =>
      simp only [app_preflight, hb] at h
      by_cases hq : p.quantidade < item.qtd
      · rw [if_pos hq] at h; simp at h
      · rw [if_neg hq] at h
        simp only [preflight, hb]
        rw [if_neg hq]
        exact ih _ _ h

theorem finalizar_success (oracle : Nat → Bool) (now : String) (db : DB)
    (dados : DadosVenda) (v : Nat) (db' : DB)
    (h : finalizar_venda oracle now db dados = (.ok v, db')) :
    v = db.nextVendaId ∧
    (∃ venda : Venda, db'.vendas = db.vendas ++ [venda] ∧
      venda.id = db.nextVendaId ∧ venda.cliente_id = dados.cliente_id ∧
      venda.total = serverSum db dados.itens) ∧
    db'.itens = db.itens ++ mkRows db db.nextVendaId dados.itens ∧
    db'.clientes = db.clientes ∧
    db'.nextVendaId = db.nextVendaId + 1 ∧
    (∀ i, pinfo db' i = pinfo db i) ∧
    ((∀ n, oracle n = false) →
      db'.historico = db.historico ++ saidaRows now dados.itens) := by
  simp only [finalizar_venda] at h
  by_cases h0 : dados.itens.isEmpty = true
  · rw [if_pos h0] at h; simp at h
  rw [if_neg h0] at h
  cases hpf : app_preflight db dados.itens 0 with
  | error m => simp only [hpf] at h; simp at h
  | ok total =>
    simp only [hpf] at h
    cases hrid : (registrar_venda_completa oracle now db dados.cliente_id dados.itens total
        (dados.forma_pagamento.getD "Dinheiro") (dados.valor_pago.getD total)
        (dados.troco.getD 0)).venda_id with
    | none => simp only [hrid] at h; simp at h
    | some w =>
      simp only [hrid] at h
      by_cases hw : (w == 0) = true
      · rw [if_pos hw] at h; simp at h
      · rw [if_neg hw] at h
        simp only [Prod.mk.injEq, Resp.ok.injEq] at h
        obtain ⟨hwv, hdb⟩ := h
        subst hwv
        have hreg : registrar_venda_completa oracle now db dados.cliente_id dados.itens total
            (dados.forma_pagamento.getD "Dinheiro") (dados.valor_pago.getD total)
            (dados.troco.getD 0) =
            ⟨some w,
             (registrar_venda_completa oracle now db dados.cliente_id dados.itens total
               (dados.forma_pagamento.getD "Dinheiro") (dados.valor_pago.getD total)
               (dados.troco.getD 0)).msg, db'⟩ := by
          have : registrar_venda_completa oracle now db dados.cliente_id dados.itens total
              (dados.forma_pagamento.getD "Dinheiro") (dados.valor_pago.getD total)
              (dados.troco.getD 0) =
              ⟨(registrar_venda_completa oracle now db dados.cliente_id dados.itens total
                  (dados.forma_pagamento.getD "Dinheiro") (dados.valor_pago.getD total)
                  (dados.troco.getD 0)).venda_id,
               (registrar_venda_completa oracle now db dados.cliente_id dados.itens total
                  (dados.forma_pagamento.getD "Dinheiro") (dados.valor_pago.getD total)
                  (dados.troco.getD 0)).msg,
               (registrar_venda_completa oracle now db dados.cliente_id dados.itens total
                  (dados.forma_pagamento.getD "Dinheiro") (dados.valor_pago.getD total)
                  (dados.troco.getD 0)).db⟩ := rfl
          rw [this, hrid, hdb]
        have hs := registrar_success oracle now db dados.cliente_id dados.itens total
          (dados.forma_pagamento.getD "Dinheiro") (dados.valor_pago.getD total)
          (dados.troco.getD 0) w _ db' hreg
        have htot : total = serverSum db dados.itens := by
          have := app_preflight_ok db dados.itens 0 total hpf
          simpa using this
        exact ⟨hs.1,
          ⟨⟨db.nextVendaId, dados.cliente_id, now, total,
             dados.forma_pagamento.getD "Dinheiro", dados.valor_pago.getD total,
             dados.troco.getD 0⟩, hs.2.1, rfl, rfl, htot⟩,
          hs.2.2.1, hs.2.2.2.1, hs.2.2.2.2.1, hs.2.2.2.2.2.1, hs.2.2.2.2.2.2⟩

/-! ## Lemma layer: the sale-total invariant across runs -/

/-- The invariant of claim C3: every committed Sale row carries the sum of
quantity times captured unit price over its persisted items. -/
def TotaisOk (db : DB) : Prop := ∀ v ∈ db.vendas, v.total = sumItens db v.id

/-- Bookkeeping invariant: sale ids and item back-references stay below
the AUTOINCREMENT counter, so a fresh sale id collides with nothing. -/
def IdsOk (db : DB) : Prop :=
  (∀ v ∈ db.vendas, v.id < db.nextVendaId) ∧
  (∀ r ∈ db.itens, r.venda_id < db.nextVendaId)

theorem sales_frame_of {db db' : DB} (hv : db'.vendas = db.vendas)
    (hi : db'.itens = db.itens) (hn : db'.nextVendaId = db.nextVendaId)
    (hT : TotaisOk db) (hI : IdsOk db) : TotaisOk db' ∧ IdsOk db' := by
  refine ⟨?_, fun v hv2 => hn ▸ hI.1 v (hv ▸ hv2), fun r hr => hn ▸ hI.2 r (hi ▸ hr)⟩
  intro v hv2
  rw [hv] at hv2
  rw [hT v hv2]
  unfold sumItens
  rw [hi]

theorem adicionar_produto_frame (db : DB) (now nome : String) (preco : Rat)
    (qtd : Int) (codigo : Option String) :
    (adicionar_produto db now nome preco qtd codigo).2.vendas = db.vendas ∧
    (adicionar_produto db now nome preco qtd codigo).2.itens = db.itens ∧
    (adicionar_produto db now nome preco qtd codigo).2.nextVendaId = db.nextVendaId := by
  simp only [adicionar_produto]
  repeat' split
  all_goals exact ⟨rfl, rfl, rfl⟩

theorem atualizar_produto_frame (db : DB) (id : Nat) (nome : String) (preco : Rat)
    (qtd : Int) (codigo : Option String) :
    (atualizar_produto db id nome preco qtd codigo).2.vendas = db.vendas ∧
    (atualizar_produto db id nome preco qtd codigo).2.itens = db.itens ∧
    (atualizar_produto db id nome preco qtd codigo).2.nextVendaId = db.nextVendaId := by
  simp only [atualizar_produto]
  repeat' split
  all_goals exact ⟨rfl, rfl, rfl⟩

theorem excluir_produto_frame (db : DB) (id : Nat) :
    (excluir_produto db id).2.vendas = db.vendas ∧
    (excluir_produto db id).2.itens = db.itens ∧
    (excluir_produto db id).2.nextVendaId = db.nextVendaId := by
  unfold excluir_produto
  split
  all_goals exact ⟨rfl, rfl, rfl⟩

theorem adicionar_cliente_frame (db : DB) (nome : String) (telefone email : Option String) :
    (adicionar_cliente db nome telefone email).2.vendas = db.vendas ∧
    (adicionar_cliente db nome telefone email).2.itens = db.itens ∧
    (adicionar_cliente db nome telefone email).2.nextVendaId = db.nextVendaId := by
  simp only [adicionar_cliente]
  repeat' split
  all_goals exact ⟨rfl, rfl, rfl⟩

theorem excluir_cliente_frame (db : DB) (id : Nat) :
    (excluir_cliente db id).2.vendas = db.vendas ∧
    (excluir_cliente db id).2.itens = db.itens ∧
    (excluir_cliente db id).2.nextVendaId = db.nextVendaId := by
  unfold excluir_cliente
  split
  all_goals exact ⟨rfl, rfl, rfl⟩

theorem sum_mkRows (db : DB) (nv : Nat) (itens : List ItemCarrinho) :
    ((mkRows db nv itens).map
      (fun r => (r.quantidade : Rat) * r.preco_unitario)).sum = serverSum db itens := by
  unfold mkRows serverSum
  rw [List.map_map]
  exact congrArg List.sum (List.map_congr_left fun it _ => mul_comm _ _)

theorem filter_mkRows_self (db : DB) (nv : Nat) (itens : List ItemCarrinho) :
    (mkRows db nv itens).filter (fun r => r.venda_id == nv) = mkRows db nv itens := by
  apply List.filter_eq_self.mpr
  intro r hr
  simp only [mkRows, List.mem_map] at hr
  obtain ⟨it, -, rfl⟩ := hr
  simp

theorem filter_mkRows_ne (db : DB) (nv : Nat) (itens : List ItemCarrinho)
    (vid : Nat) (hne : vid ≠ nv) :
    (mkRows db nv itens).filter (fun r => r.venda_id == vid) = [] := by
  apply List.filter_eq_nil_iff.mpr
  intro r hr
  simp only [mkRows, List.mem_map] at hr
  obtain ⟨it, -, rfl⟩ := hr
  simp [Ne.symm hne]

theorem checkout_inv_step (oracle : Nat → Bool) (now : String) (db : DB)
    (dados : DadosVenda) (v : Nat) (db' : DB)
    (h : finalizar_venda oracle now db dados = (.ok v, db'))
    (hT : TotaisOk db) (hI : IdsOk db) : TotaisOk db' ∧ IdsOk db' := by
  obtain ⟨hv, ⟨venda, hvens, hvid, -, hvtot⟩, hit, -, hnext, -, -⟩ :=
    finalizar_success oracle now db dados v db' h
  constructor
  · intro w hw
    rw [hvens] at hw
    rcases List.mem_append.mp hw with hw | hw
    · have hlt := hI.1 w hw
      rw [hT w hw]
      unfold sumItens
      rw [hit, List.filter_append, List.map_append, List.sum_append,
        filter_mkRows_ne db db.nextVendaId dados.itens w.id (by omega)]
      simp
    · rcases List.mem_singleton.mp hw with rfl
      rw [hvtot, hvid]
      unfold sumItens
      rw [hit, List.filter_append, List.map_append, List.sum_append]
      have hold : db.itens.filter (fun r => r.venda_id == db.nextVendaId) = [] := by
        apply List.filter_eq_nil_iff.mpr
        intro r hr
        have := hI.2 r hr
        simp
        omega
      rw [hold, filter_mkRows_self, sum_mkRows]
      simp
  · constructor
    · intro w hw
      rw [hvens] at hw
      rw [hnext]
      rcases List.mem_append.mp hw with hw | hw
      · have := hI.1 w hw
        omega
      · rcases List.mem_singleton.mp hw with rfl
        rw [hvid]
        omega
    · intro r hr
      rw [hit] at hr
      rw [hnext]
      rcases List.mem_append.mp hr with hr | hr
      · have := hI.2 r hr
        omega
      · simp only [mkRows, List.mem_map] at hr
        obtain ⟨it, -, rfl⟩ := hr
        simp

theorem inv_step (op : Op) (db : DB) (hT : TotaisOk db) (hI : IdsOk db)
    (hok : stepOkB op db = true) : TotaisOk (stepDB op db) ∧ IdsOk (stepDB op db) := by
  cases op with
  | addProduto now nome preco qtd codigo =>
    obtain ⟨h1, h2, h3⟩ := adicionar_produto_frame db now nome preco qtd codigo
    exact sales_frame_of h1 h2 h3 hT hI
  | updProduto id nome preco qtd codigo =>
    obtain ⟨h1, h2, h3⟩ := atualizar_produto_frame db id nome preco qtd codigo
    exact sales_frame_of h1 h2 h3 hT hI
  | delProduto id =>
    obtain ⟨h1, h2, h3⟩ := excluir_produto_frame db id
    exact sales_frame_of h1 h2 h3 hT hI
  | addCliente nome telefone email =>
    obtain ⟨h1, h2, h3⟩ := adicionar_cliente_frame db nome telefone email
    exact sales_frame_of h1 h2 h3 hT hI
  | delCliente id =>
    obtain ⟨h1, h2, h3⟩ := excluir_cliente_frame db id
    exact sales_frame_of h1 h2 h3 hT hI
  | checkout oracle now dados =>
    simp only [stepOkB] at hok
    cases hf : (finalizar_venda oracle now db dados).1 with
    | erro m c => rw [hf] at hok; simp at hok
    | ok v =>
      have hfull : finalizar_venda oracle now db dados =
          (.ok v, (finalizar_venda oracle now db dados).2) := by
        have : finalizar_venda oracle now db dados =
            ((finalizar_venda oracle now db dados).1,
             (finalizar_venda oracle now db dados).2) := rfl
        rw [this, hf]
      exact checkout_inv_step oracle now db dados v _ hfull hT hI

theorem inv_run : ∀ (ops : List Op) (db : DB), TotaisOk db → IdsOk db →
    runOkB ops db = true → TotaisOk (runDB ops db) := by
  intro ops
  induction ops with
  | nil => intro db hT _ _; exact hT
  | cons op rest ih =>
    intro db hT hI hok
    simp only [runOkB, Bool.and_eq_true] at hok
    exact ih _ (inv_step op db hT hI hok.1).1 (inv_step op db hT hI hok.1).2 hok.2

/-! ## Lemma layer: cart lines are read only through id and qtd -/

/-- The two cart-line fields the code actually reads. -/
def stripLinha (it : ItemCarrinho) : Nat × Int := (it.id, it.qtd)

theorem strip_fields {a b : ItemCarrinho} (h : stripLinha a = stripLinha b) :
    a.id = b.id ∧ a.qtd = b.qtd := by
  unfold stripLinha at h
  exact ⟨congrArg Prod.fst h, congrArg Prod.snd h⟩

theorem app_preflight_strip (db : DB) :
    ∀ (l1 l2 : List ItemCarrinho), l1.map stripLinha = l2.map stripLinha →
      ∀ acc, app_preflight db l1 acc = app_preflight db l2 acc := by
  intro l1
  induction l1 with
  | nil =>
    intro l2 h acc
    cases l2 with
    | nil => rfl
    | cons b bs => simp at h
  | cons a as ih =>
    intro l2 h acc
    cases l2 with
    | nil => simp at h
    | cons b bs =>
      simp only [List.map_cons, List.cons.injEq] at h
      obtain ⟨hij, hqd⟩ := strip_fields h.1
      simp only [app_preflight, hij, hqd]
      cases hb : buscar_produto_por_id db b.id with
      | none => rfl
      | some p =>
        dsimp only
        by_cases hq : p.quantidade < b.qtd
        · rw [if_pos hq, if_pos hq]
        · rw [if_neg hq, if_neg hq]
          exact ih bs h.2 _

theorem preflight_strip (db : DB) :
    ∀ (l1 l2 : List ItemCarrinho), l1.map stripLinha = l2.map stripLinha →
      preflight db l1 = preflight db l2 := by
  intro l1
  induction l1 with
  | nil =>
    intro l2 h
    cases l2 with
    | nil => rfl
    | cons b bs => simp at h
  | cons a as ih =>
    intro l2 h
    cases l2 with
    | nil => simp at h
    | cons b bs =>
      simp only [List.map_cons, List.cons.injEq] at h
      obtain ⟨hij, hqd⟩ := strip_fields h.1
      simp only [preflight, hij, hqd]
      cases hb : buscar_produto_por_id db b.id with
      | none => rfl
      | some p =>
        dsimp only
        by_cases hq : p.quantidade < b.qtd
        · rw [if_pos hq, if_pos hq]
        · rw [if_neg hq, if_neg hq]
          exact ih bs h.2

theorem commitLoop_strip (oracle : Nat → Bool) (now : String) (vid : Nat) :
    ∀ (l1 l2 : List ItemCarrinho), l1.map stripLinha = l2.map stripLinha →
      ∀ db k, commitLoop oracle now vid l1 db k = commitLoop oracle now vid l2 db k := by
  intro l1
  induction l1 with
  | nil =>
    intro l2 h db k
    cases l2 with
    | nil => rfl
    | cons b bs => simp at h
  | cons a as ih =>
    intro l2 h db k
    cases l2 with
    | nil => simp at h
    | cons b bs =>
      simp only [List.map_cons, List.cons.injEq] at h
      obtain ⟨hij, hqd⟩ := strip_fields h.1
      simp only [commitLoop, hij, hqd]
      cases hb : buscar_produto_por_id db b.id with
      | none => rfl
      | some p =>
        dsimp only
        by_cases h1 : oracle k = true ∨ ¬(0 < b.qtd ∧ 0 < p.preco)
        · rw [if_pos h1, if_pos h1]
        · rw [if_neg h1, if_neg h1]
          by_cases h2 : p.quantidade - b.qtd < 0
          · rw [if_pos h2, if_pos h2]
          · rw [if_neg h2, if_neg h2]
            by_cases h3 : oracle (k + 1) = true
            · rw [if_pos h3, if_pos h3]
            · rw [if_neg h3, if_neg h3]
              by_cases h4 : oracle (k + 2) = true ∨ ¬(0 < b.qtd)
              · rw [if_pos h4]
                exact ih bs h.2 _ _
              · rw [if_neg h4]
                exact ih bs h.2 _ _

theorem isEmpty_strip {l1 l2 : List ItemCarrinho}
    (h : l1.map stripLinha = l2.map stripLinha) : l1.isEmpty = l2.isEmpty := by
  cases l1 <;> cases l2 <;> simp_all

theorem registrar_strip (oracle : Nat → Bool) (now : String) (db : DB)
    (cid : Option Nat) (l1 l2 : List ItemCarrinho)
    (h : l1.map stripLinha = l2.map stripLinha) (total : Rat) (fp : String)
    (vp tr : Rat) :
    registrar_venda_completa oracle now db cid l1 total fp vp tr =
    registrar_venda_completa oracle now db cid l2 total fp vp tr := by
  simp only [registrar_venda_completa]
  rw [isEmpty_strip h, preflight_strip db l1 l2 h,
    commitLoop_strip oracle now db.nextVendaId l1 l2 h]

theorem finalizar_strip (oracle : Nat → Bool) (now : String) (db : DB)
    (dados : DadosVenda) (l2 : List ItemCarrinho)
    (h : l2.map stripLinha = dados.itens.map stripLinha) (tc : Option Rat) :
    finalizar_venda oracle now db { dados with itens := l2, total_cliente := tc } =
    finalizar_venda oracle now db dados := by
  cases dados with
  | mk itens cid fp vp tr tc0 =>
    simp only [finalizar_venda]
    rw [isEmpty_strip h]
    simp only [app_preflight_strip db l2 itens h 0]
    simp only [registrar_strip oracle now db cid l2 itens h]

/-! ## Claim C2 -/

/-- C2, amended.  For every direct call of the sale-commit operation whose
declared total is positive and whose cart contains a bad line (absent
product or quantity above stock), the call fails during the read-only
pre-flight pass with the corresponding error of the first bad line —
NotFound naming the product id, or InsufficientStock naming the product
with available and requested quantities — and the returned database is
exactly the input database (no Sale, SaleItem, Product or StockMovement
write).  The amendment against the original claim: with a non-positive
declared total the call still fails without any write, but earlier and
with the message Total inválido instead of the pre-flight error. -/
theorem C2_preflight_fails_unchanged (oracle : Nat → Bool) (now : String) (db : DB)
    (cid : Option Nat) (itens : List ItemCarrinho) (total : Rat) (fp : String)
    (vp tr : Rat) (ht : 0 < total) (hbad : itens.any (badLineB db) = true) :
    (registrar_venda_completa oracle now db cid itens total fp vp tr).db = db ∧
    (registrar_venda_completa oracle now db cid itens total fp vp tr).venda_id = none ∧
    ∃ it ∈ itens,
      (buscar_produto_por_id db it.id = none ∧
        (registrar_venda_completa oracle now db cid itens total fp vp tr).msg =
          nfMsg it.id) ∨
      (∃ p, buscar_produto_por_id db it.id = some p ∧ p.quantidade < it.qtd ∧
        (registrar_venda_completa oracle now db cid itens total fp vp tr).msg =
          insuffMsg p.nome p.quantidade it.qtd) := by
  have hne : itens ≠ [] := by
    intro hnil
    rw [hnil] at hbad
    simp at hbad
  obtain ⟨it, hmem, hcase⟩ := preflight_of_bad db itens hbad
  rcases hcase with ⟨hn, hm⟩ | ⟨p, hs, hq, hm⟩
  · rw [registrar_preflight_err oracle now db cid itens total fp vp tr hne ht _ hm]
    exact ⟨rfl, rfl, it, hmem, Or.inl ⟨hn, rfl⟩⟩
  · rw [registrar_preflight_err oracle now db cid itens total fp vp tr hne ht _ hm]
    exact ⟨rfl, rfl, it, hmem, Or.inr ⟨p, hs, hq, rfl⟩⟩

/-- C2, witness: the amended theorem applied to a concrete over-stock cart
(50 requested, 10 in stock, declared total 10) — the call returns the
insufficiency error naming the product and both quantities and leaves the
database unchanged. -/
theorem C2_preflight_fails_unchanged_witness :
    (0 : Rat) < 10 ∧ ([⟨1, 50, none⟩] : List ItemCarrinho).any (badLineB dbA) = true ∧
    ((registrar_venda_completa noFail "d1" dbA none [⟨1, 50, none⟩] 10
        "Dinheiro" 10 0).db = dbA ∧
      (registrar_venda_completa noFail "d1" dbA none [⟨1, 50, none⟩] 10
        "Dinheiro" 10 0).venda_id = none ∧
      ∃ it ∈ ([⟨1, 50, none⟩] : List ItemCarrinho),
        (buscar_produto_por_id dbA it.id = none ∧
          (registrar_venda_completa noFail "d1" dbA none [⟨1, 50, none⟩] 10
            "Dinheiro" 10 0).msg = nfMsg it.id) ∨
        (∃ p, buscar_produto_por_id dbA it.id = some p ∧ p.quantidade < it.qtd ∧
          (registrar_venda_completa noFail "d1" dbA none [⟨1, 50, none⟩] 10
            "Dinheiro" 10 0).msg = insuffMsg p.nome p.quantidade it.qtd)) :=
  ⟨by decide, by decide,
    C2_preflight_fails_unchanged noFail "d1" dbA none [⟨1, 50, none⟩] 10
      "Dinheiro" 10 0 (by decide) (by decide)⟩

/-! ## Claim C3 -/

/-- C3, amended.  In every state reachable from the fresh database by a
sequence of operations in which every checkout reported success, each
committed Sale row's total equals the sum of quantity times captured unit
price over its persisted items.  The amendment against the original
claim: an aborted checkout attempt is excluded, because the per-statement
commits of the storage layer can leave behind a Sale header whose
persisted items sum to less than its total (see the counterexample). -/
theorem C3_totals_when_checkouts_succeed (ops : List Op)
    (hok : runOkB ops db0 = true) : TotaisOk (runDB ops db0) := by
  refine inv_run ops db0 ?_ ?_ hok
  · intro v hv
    cases hv
  · exact ⟨fun v hv => (List.not_mem_nil v hv).elim, fun r hr => (List.not_mem_nil r hr).elim⟩

/-- C3, witness: create a product and sell three units of it; the run
reports success everywhere, and the theorem yields the total invariant of
the resulting state. -/
theorem C3_totals_when_checkouts_succeed_witness :
    runOkB [.addProduto "d0" "Arroz" 5 10 none,
            .checkout noFail "d1" ⟨[⟨1, 3, none⟩], none, none, none, none, none⟩]
      db0 = true ∧
    TotaisOk (runDB [.addProduto "d0" "Arroz" 5 10 none,
            .checkout noFail "d1" ⟨[⟨1, 3, none⟩], none, none, none, none, none⟩]
      db0) :=
  ⟨by decide,
    C3_totals_when_checkouts_succeed
      [.addProduto "d0" "Arroz" 5 10 none,
       .checkout noFail "d1" ⟨[⟨1, 3, none⟩], none, none, none, none, none⟩]
      (by decide)⟩

/-! ## Claim C5 -/

/-- C5.  For every checkout that commits a sale: the persisted SaleItem
rows of the new sale carry exactly the server-side price of their product
at call time (precoD db), the committed total is the server-computed sum
of price times quantity, and any client-declared per-line price or
subtotal is ignored — replacing the cart by one with the same ids and
quantities but arbitrary client prices, and the declared subtotal by any
value, produces the identical response and final state. -/
theorem C5_server_prices_authoritative (oracle : Nat → Bool) (now : String)
    (db : DB) (dados : DadosVenda) (v : Nat) (db' : DB)
    (h : finalizar_venda oracle now db dados = (.ok v, db')) :
    db'.itens = db.itens ++
      dados.itens.map (fun it => ⟨v, it.id, it.qtd, precoD db it.id⟩) ∧
    (∃ venda : Venda, db'.vendas = db.vendas ++ [venda] ∧
      venda.total = serverSum db dados.itens) ∧
    (∀ (l2 : List ItemCarrinho) (tc : Option Rat),
      l2.map stripLinha = dados.itens.map stripLinha →
      finalizar_venda oracle now db { dados with itens := l2, total_cliente := tc } =
        (.ok v, db')) := by
  obtain ⟨hv, ⟨venda, hvens, -, -, hvtot⟩, hit, -, -, -, -⟩ :=
    finalizar_success oracle now db dados v db' h
  refine ⟨?_, ⟨venda, hvens, hvtot⟩, ?_⟩
  · rw [hit, ← hv]
    rfl
  · intro l2 tc hstrip
    rw [finalizar_strip oracle now db dados l2 hstrip tc, h]

/-- C5, witness: a cart line declaring client price 99 for a product whose
server price is 5 commits at 5, and swapping the client-declared numbers
changes nothing. -/
theorem C5_server_prices_authoritative_witness :
    finalizar_venda noFail "d1" dbA ⟨[⟨1, 3, some 99⟩], none, none, none, none, some 9⟩ =
      (.ok 1, (finalizar_venda noFail "d1" dbA
        ⟨[⟨1, 3, some 99⟩], none, none, none, none, some 9⟩).2) ∧
    ((finalizar_venda noFail "d1" dbA
        ⟨[⟨1, 3, some 99⟩], none, none, none, none, some 9⟩).2.itens =
      dbA.itens ++ [⟨1, 1, 3, precoD dbA 1⟩] ∧
    (∃ venda : Venda,
      (finalizar_venda noFail "d1" dbA
        ⟨[⟨1, 3, some 99⟩], none, none, none, none, some 9⟩).2.vendas =
        dbA.vendas ++ [venda] ∧
      venda.total = serverSum dbA [⟨1, 3, some 99⟩]) ∧
    (∀ (l2 : List ItemCarrinho) (tc : Option Rat),
      l2.map stripLinha = [((1, 3) : Nat × Int)] →
      finalizar_venda noFail "d1" dbA ⟨l2, none, none, none, none, tc⟩ =
        (.ok 1, (finalizar_venda noFail "d1" dbA
          ⟨[⟨1, 3, some 99⟩], none, none, none, none, some 9⟩).2))) := by
  refine ⟨by decide, ?_⟩
  have h := C5_server_prices_authoritative noFail "d1" dbA
    ⟨[⟨1, 3, some 99⟩], none, none, none, none, some 9⟩ 1
    (finalizar_venda noFail "d1" dbA
      ⟨[⟨1, 3, some 99⟩], none, none, none, none, some 9⟩).2 (by decide)
  exact ⟨h.1, h.2.1, fun l2 tc hs => h.2.2 l2 tc hs⟩

/-! ## Claim C6 -/

/-- C6, amended.  Provided no statement of the commit raises a storage
error (the noFail oracle), every item row of a successfully committed
sale has a matching saida movement row — same product, same quantity —
in the final state; the movement INSERT runs in the same per-line pass as
the stock decrement.  The amendment against the original claim: when the
movement INSERT itself fails, the sale still commits without the row,
because the source never checks that statement's cursor (see the
counterexample); the rows are also not one atomic unit of work, since
every statement commits on its own. -/
theorem C6_saida_rows_when_no_failure (now : String) (db : DB)
    (dados : DadosVenda) (v : Nat) (db' : DB)
    (hids : ∀ r ∈ db.itens, r.venda_id < db.nextVendaId)
    (h : finalizar_venda noFail now db dados = (.ok v, db')) :
    ∀ r ∈ db'.itens, r.venda_id = v →
      ∃ m ∈ db'.historico, m.produto_id = r.produto_id ∧ m.tipo = "saida" ∧
        m.quantidade = r.quantidade := by
  obtain ⟨hv, -, hit, -, -, -, hhist⟩ := finalizar_success noFail now db dados v db' h
  have hh := hhist (fun _ => rfl)
  intro r hr hrv
  rw [hit] at hr
  rcases List.mem_append.mp hr with hr | hr
  · have h1 := hids r hr
    omega
  · simp only [mkRows, List.mem_map] at hr
    obtain ⟨it, hitm, rfl⟩ := hr
    refine ⟨⟨it.id, "saida", it.qtd, now⟩, ?_, rfl, rfl, rfl⟩
    rw [hh]
    exact List.mem_append_right _ (List.mem_map.mpr ⟨it, hitm, rfl⟩)

/-- C6, witness: the amended theorem applied to the concrete sale of three
units of product 1 — the matching saida row exists in the final state. -/
theorem C6_saida_rows_when_no_failure_witness :
    (∀ r ∈ dbA.itens, r.venda_id < dbA.nextVendaId) ∧
    finalizar_venda noFail "d1" dbA ⟨[⟨1, 3, none⟩], none, none, none, none, none⟩ =
      (.ok 1, (finalizar_venda noFail "d1" dbA
        ⟨[⟨1, 3, none⟩], none, none, none, none, none⟩).2) ∧
    (∃ m ∈ (finalizar_venda noFail "d1" dbA
        ⟨[⟨1, 3, none⟩], none, none, none, none, none⟩).2.historico,
      m.produto_id = (ItemVenda.mk 1 1 3 5).produto_id ∧ m.tipo = "saida" ∧
      m.quantidade = (ItemVenda.mk 1 1 3 5).quantidade) := by
  refine ⟨by decide, by decide, ?_⟩
  exact C6_saida_rows_when_no_failure "d1" dbA
    ⟨[⟨1, 3, none⟩], none, none, none, none, none⟩ 1
    (finalizar_venda noFail "d1" dbA
      ⟨[⟨1, 3, none⟩], none, none, none, none, none⟩).2
    (by decide) (by decide) (ItemVenda.mk 1 1 3 5) (by decide) rfl

/-! ## Claim C7 -/

/-- C7, amended.  The client-declared subtotal is ignored entirely: the
response and the final state of a checkout are identical for every value
of the declared subtotal (so no rejection and also no logging — nothing
in the outcome records a discrepancy), and a committed sale always
carries the server-computed total. -/
theorem C7_client_subtotal_ignored (oracle : Nat → Bool) (now : String)
    (db : DB) (dados : DadosVenda) :
    (∀ d1 d2 : Option Rat,
      finalizar_venda oracle now db { dados with total_cliente := d1 } =
        finalizar_venda oracle now db { dados with total_cliente := d2 }) ∧
    (∀ (v : Nat) (db' : DB), finalizar_venda oracle now db dados = (.ok v, db') →
      ∃ venda : Venda, db'.vendas = db.vendas ++ [venda] ∧
        venda.total = serverSum db dados.itens) := by
  constructor
  · intro d1 d2
    cases dados
    rfl
  · intro v db' h
    obtain ⟨-, ⟨venda, hvens, -, -, hvtot⟩, -, -, -, -, -⟩ :=
      finalizar_success oracle now db dados v db' h
    exact ⟨venda, hvens, hvtot⟩

/-- C7, witness: declared subtotal 100 against server total 15 — the
theorem equates the outcome to the one with declared subtotal 15 and
yields the committed server total. -/
theorem C7_client_subtotal_ignored_witness :
    finalizar_venda noFail "d1" dbA ⟨[⟨1, 3, none⟩], none, none, none, none, some 100⟩ =
      finalizar_venda noFail "d1" dbA
        ⟨[⟨1, 3, none⟩], none, none, none, none, some 15⟩ ∧
    (∃ venda : Venda,
      (finalizar_venda noFail "d1" dbA
        ⟨[⟨1, 3, none⟩], none, none, none, none, some 100⟩).2.vendas =
        dbA.vendas ++ [venda] ∧
      venda.total = serverSum dbA [⟨1, 3, none⟩]) := by
  have h := C7_client_subtotal_ignored noFail "d1" dbA
    ⟨[⟨1, 3, none⟩], none, none, none, none, some 100⟩
  refine ⟨h.1 (some 100) (some 15), ?_⟩
  exact h.2 1 (finalizar_venda noFail "d1" dbA
    ⟨[⟨1, 3, none⟩], none, none, none, none, some 100⟩).2 (by decide)

/-! ## Claim C9 -/

/-- C9.  Customer creation with a valid name: with the email omitted (or
given as the empty string, which the code treats as omitted) the
operation succeeds and inserts the row with a NULL email; with an email
that is non-empty after sanitization and fails the validar_email regex,
the operation fails with the structured result (false, Email inválido)
and the database is unchanged. -/
theorem C9_email_validation (db : DB) (nome : String) (telefone : Option String)
    (hname : ¬(sanitizar_input nome = "" ∨ (sanitizar_input nome).length < 2)) :
    (∀ e : Option String, (e = none ∨ e = some "") →
      adicionar_cliente db nome telefone e =
        ((true, "Cliente adicionado com sucesso"),
         { db with
           clientes := db.clientes ++
             [⟨db.nextClienteId, sanitizar_input nome, sanitizeOpt telefone, none⟩],
           nextClienteId := db.nextClienteId + 1 })) ∧
    (∀ e : String, sanitizar_input e ≠ "" → validar_email (sanitizar_input e) = false →
      adicionar_cliente db nome telefone (some e) = ((false, "Email inválido"), db)) := by
  constructor
  · intro e he
    have hes : sanitizeOpt e = none := by
      rcases he with rfl | rfl
      · rfl
      · rfl
    simp only [adicionar_cliente, hes]
    rw [if_neg hname]
    rw [if_neg (by simp [truthyOpt])]
    rfl
  · intro e hne hval
    have hraw : e ≠ "" := by
      intro h0
      rw [h0] at hne
      exact hne rfl
    have hes : sanitizeOpt (some e) = some (sanitizar_input e) := by
      simp only [sanitizeOpt]
      rw [if_neg hraw]
    simp only [adicionar_cliente, hes]
    rw [if_neg hname]
    rw [if_pos (by simp [truthyOpt, hne, hval])]

/-- C9, witness: the theorem applied to name Ana — omitted email succeeds
and inserts the row; email not-an-email fails with Email inválido and no
row. -/
theorem C9_email_validation_witness :
    ¬(sanitizar_input "Ana" = "" ∨ (sanitizar_input "Ana").length < 2) ∧
    adicionar_cliente db0 "Ana" none none =
      ((true, "Cliente adicionado com sucesso"),
       { db0 with clientes := [⟨1, "Ana", none, none⟩], nextClienteId := 2 }) ∧
    adicionar_cliente db0 "Ana" none (some "not-an-email") =
      ((false, "Email inválido"), db0) := by
  refine ⟨by decide, ?_, ?_⟩
  · have h := (C9_email_validation db0 "Ana" none (by decide)).1 none (Or.inl rfl)
    rw [h]
    decide
  · exact (C9_email_validation db0 "Ana" none (by decide)).2 "not-an-email"
      (by decide) (by decide)

/-! ## Claim C10 -/

/-- C10, amended.  When the lookup-by-code operation returns a product,
that product's barcode equals the sanitized query, or the product's name
matches the sqlite LIKE pattern percent-query-percent — ASCII
case-insensitively and with percent and underscore acting as wildcards —
which is strictly weaker than the query being a case-sensitive substring
of the name (see the counterexample). -/
theorem C10_lookup_sound_like (db : DB) (codigo : String) (p : Produto)
    (h : buscar_produto_por_codigo db codigo = some p) :
    p.codigo_barras = some (sanitizar_input codigo) ∨
    likeMatch ('%' :: ((sanitizar_input codigo).data ++ ['%'])) p.nome.data = true := by
  unfold buscar_produto_por_codigo at h
  have h2 := List.find?_some h
  rw [Bool.or_eq_true] at h2
  rcases h2 with h3 | h3
  · exact Or.inl (by simpa using h3)
  · exact Or.inr h3

/-- C10, witness: fetching 789 returns the product that indeed carries
barcode 789 — the theorem's disjunction holds concretely. -/
theorem C10_lookup_sound_like_witness :
    buscar_produto_por_codigo dbM "789" = some ⟨1, "Milk", 5, 1, some "789"⟩ ∧
    ((Produto.mk 1 "Milk" 5 1 (some "789")).codigo_barras =
        some (sanitizar_input "789") ∨
      likeMatch ('%' :: ((sanitizar_input "789").data ++ ['%']))
        (Produto.mk 1 "Milk" 5 1 (some "789")).nome.data = true) :=
  ⟨by decide, C10_lookup_sound_like dbM "789" ⟨1, "Milk", 5, 1, some "789"⟩ (by decide)⟩

/-- C4, witness: a concrete run (create a product with stock 10, sell 3 of
it) whose final unique product row the theorem shows non-negative. -/
theorem C4_quantidade_nonneg_witness :
    (0 : Int) ≤ (Produto.mk 1 "Arroz" 5 7 none).quantidade ∧
    Produto.mk 1 "Arroz" 5 7 none ∈
      (runDB [.addProduto "d0" "Arroz" 5 10 none,
              .checkout noFail "d1" ⟨[⟨1, 3, none⟩], none, none, none, none, none⟩]
        db0).produtos :=
  ⟨C4_quantidade_nonneg
      [.addProduto "d0" "Arroz" 5 10 none,
       .checkout noFail "d1" ⟨[⟨1, 3, none⟩], none, none, none, none, none⟩]
      (Produto.mk 1 "Arroz" 5 7 none) (by decide), by decide⟩

end Loja
